import Mathlib

/-!
Shallow embedding of `src/email-sender/email-sender.c`: a worker that turns
rows of a `tickets` table into outbound emails, advancing each row through a
status lifecycle, with a process-wide consecutive-failure counter and a
15-minute backoff gate.

Modelling conventions:
- The database is a table `Nat → Option Ticket`; each SQL statement of the C
  source becomes a pure conditional update or select on that table.  Database
  commands are modelled as succeeding at the protocol level
  (`PGRES_COMMAND_OK`), as they do in every non-degraded run.
- The transport environment of one `send_email` call is a `SendEnv`:
  whether `curl_easy_init` returns a handle, and whether `curl_easy_perform`
  returns `CURLE_OK`.
- `process_ticket` returns the new state together with a trace of observable
  events (queries issued, send attempts, cooldown waits), so that claims about
  what is or is not issued can be stated.
- `NOW()` is an abstract timestamp `now : Nat` supplied per invocation.
-/

/-- Ticket status column: `received`, `processing` or `completed`. -/
inductive Status where
  | received
  | processing
  | completed
deriving DecidableEq

/-- One row of the `tickets` table: the columns the program reads or writes. -/
structure Ticket where
  email : String
  subject : String
  body : String
  status : Status
  sent_at : Option Nat

/-- The `tickets` table, keyed by the integer `id` column. -/
def TicketTable : Type := Nat → Option Ticket

/-- Process state: the database plus the `static int auth_failures` counter
of `process_ticket`. -/
structure PState where
  tickets : TicketTable
  auth_failures : Nat

/-- `#define MAX_AUTH_FAILURES`-style constant: `const int MAX_AUTH_FAILURES = 5`. -/
def MAX_AUTH_FAILURES : Nat := 5

/-- Transport environment for one `send_email` call. -/
structure SendEnv where
  curlInit : Bool
  performOk : Bool

/-- `send_email(to, subject, body)`: `res` starts as `CURLE_OK`; only when
`curl_easy_init` yields a handle is `curl_easy_perform` run and `res` set to
its outcome; the return value is `res == CURLE_OK`.  In particular a failed
`curl_easy_init` returns 1 (success).  (The C parameter `to` is `toAddr`
here; `to` is reserved in this development's ambient grammar.) -/
def send_email (env : SendEnv) (toAddr subject body : String) : Bool :=
  if env.curlInit then env.performOk else true

/-- Whether `curl_easy_perform` is reached inside `send_email`: it runs only
under the `if (curl)` guard, i.e. only when `curl_easy_init` succeeded. -/
def smtp_perform_called (env : SendEnv) : Bool :=
  env.curlInit

/-- Character class `[a-zA-Z0-9._%+-]` of the local part of the email regex. -/
def isLocalChar (c : Char) : Bool :=
  c.isAlpha || c.isDigit || c == '.' || c == '_' || c == '%' || c == '+' || c == '-'

/-- Character class `[a-zA-Z0-9.-]` of the domain part of the email regex. -/
def isDomainChar (c : Char) : Bool :=
  c.isAlpha || c.isDigit || c == '.' || c == '-'

/-- `is_valid_email`: whether the anchored POSIX extended regex
`^[a-zA-Z0-9._%+-]+@[a-zA-Z0-9.-]+\.[a-zA-Z]\x7b2,\x7d$` matches the whole
string.  Since `@` belongs to no class of the pattern, a match has exactly
one `@`; since the final `[a-zA-Z]\x7b2,\x7d` contains no dot, the dot of
`\.` is the last dot after the `@`.  The function decides the match by
splitting at those separators. -/
def is_valid_email (email : String) : Bool :=
  match email.toList.splitOn '@' with
  | [localPart, rest] =>
    let segs := rest.splitOn '.'
    let tld := segs.getLastD []
    let dom := List.intercalate ['.'] segs.dropLast
    !localPart.isEmpty && localPart.all isLocalChar &&
    decide (2 ≤ segs.length) &&
    !dom.isEmpty && dom.all isDomainChar &&
    decide (2 ≤ tld.length) && tld.all Char.isAlpha
  | _ => false

/-- `UPDATE tickets SET ... WHERE id = id AND cond`: applies `f` to the row
with key `id` when `cond` holds of it; every other row, and a missing row,
is left as is.  No statement ever inserts or deletes a row. -/
def sqlUpdate (tbl : TicketTable) (id : Nat) (cond : Ticket → Bool)
    (f : Ticket → Ticket) : TicketTable :=
  fun j =>
    match tbl j with
    | none => none
    | some t => if j = id then (if cond t then some (f t) else some t) else some t

/-- `UPDATE tickets SET status = 'processing' WHERE id = %d AND status = 'received'`. -/
def claimUpd (tbl : TicketTable) (id : Nat) : TicketTable :=
  sqlUpdate tbl id (fun t => decide (t.status = Status.received))
    (fun t => { t with status := Status.processing })

/-- `UPDATE tickets SET status = 'processing', sent_at = NOW() WHERE id = %d`
(the invalid-address path; unconditional on the id). -/
def rejectUpd (now : Nat) (tbl : TicketTable) (id : Nat) : TicketTable :=
  sqlUpdate tbl id (fun _ => true)
    (fun t => { t with status := Status.processing, sent_at := some now })

/-- `UPDATE tickets SET sent_at = NOW(), status = 'completed' WHERE id = %d`. -/
def completeUpd (now : Nat) (tbl : TicketTable) (id : Nat) : TicketTable :=
  sqlUpdate tbl id (fun _ => true)
    (fun t => { t with sent_at := some now, status := Status.completed })

/-- `SELECT email, subject, body FROM tickets WHERE id = %d AND status =
'processing'`: the row's consumed columns, or `none` when zero rows match. -/
def fetchTicket (tbl : TicketTable) (id : Nat) : Option (String × String × String) :=
  match tbl id with
  | none => none
  | some t => if t.status = Status.processing then some (t.email, t.subject, t.body) else none

/-- Observable events of one `process_ticket` invocation, in program order. -/
inductive Event where
  | cooldown (seconds : Nat)
  | claimUpdate (id : Nat)
  | fetchQuery (id : Nat)
  | rejectUpdate (id : Nat)
  | completeUpdate (id : Nat)
  | send (id : Nat) (attempted : Bool) (ok : Bool)

/-- The rate-limiting gate at the top of `process_ticket`: when
`auth_failures >= MAX_AUTH_FAILURES`, `sleep(900)` and reset the counter. -/
def backoff_gate (s : PState) : PState × List Event :=
  if MAX_AUTH_FAILURES ≤ s.auth_failures then
    ({ s with auth_failures := 0 }, [Event.cooldown 900])
  else (s, [])

/-- The tail of `process_ticket` after the claim update: fetch the row, and
either return (zero rows), mark the invalid address, or attempt the send and
account for its outcome.  `tbl1` is the table after the claim update and
`fails` the counter after the gate. -/
def afterFetch (tbl1 : TicketTable) (fails : Nat) (env : SendEnv) (now : Nat)
    (ticket_id : Nat) : PState × List Event :=
  match fetchTicket tbl1 ticket_id with
  | none => (⟨tbl1, fails⟩, [])
  | some row =>
    if is_valid_email row.1 = false then
      (⟨rejectUpd now tbl1 ticket_id, fails⟩, [Event.rejectUpdate ticket_id])
    else if send_email env row.1 row.2.1 row.2.2 then
      (⟨completeUpd now tbl1 ticket_id, 0⟩,
        [Event.send ticket_id (smtp_perform_called env) true,
         Event.completeUpdate ticket_id])
    else
      (⟨tbl1, fails + 1⟩,
        [Event.send ticket_id (smtp_perform_called env) false])

/-- `process_ticket(conn, ticket_id)`: backoff gate, claim update, fetch,
validation, dispatch and failure accounting, as in the source.  The claim
update's affected-row count is never consulted: execution always proceeds to
the fetch, whose `status = 'processing'` filter is what stops dead tickets. -/
def process_ticket (s : PState) (env : SendEnv) (now : Nat) (ticket_id : Nat) :
    PState × List Event :=
  let g := backoff_gate s
  let r := afterFetch (claimUpd g.1.tickets ticket_id) g.1.auth_failures env now ticket_id
  (r.1, g.2 ++ [Event.claimUpdate ticket_id, Event.fetchQuery ticket_id] ++ r.2)

/-- One `process_ticket` call as scheduled by the intake loop: the ticket id
named by the backlog row or notification payload, with its transport
environment and timestamp. -/
structure Invocation where
  ticket_id : Nat
  env : SendEnv
  now : Nat

/-- A sequence of `process_ticket` invocations, as issued one at a time by
the backlog scan and the notification loop of `main`. -/
def run (s : PState) (invs : List Invocation) : PState × List Event :=
  match invs with
  | [] => (s, [])
  | inv :: rest =>
    let r := process_ticket s inv.env inv.now inv.ticket_id
    let r2 := run r.1 rest
    (r2.1, r.2 ++ r2.2)

/-- Process launch: `static int auth_failures = 0`; the table holds whatever
rows exist externally. -/
def initial_state (tbl : TicketTable) : PState :=
  { tickets := tbl, auth_failures := 0 }

/-- Recogniser for a successful send event for ticket `i`. -/
def isSuccessSend (i : Nat) : Event → Bool
  | Event.send j _ ok => j == i && ok
  | _ => false

/-- Recogniser for any send event (any id, any outcome). -/
def isSendEvent : Event → Bool
  | Event.send _ _ _ => true
  | _ => false

/-- Recogniser for a cooldown wait event. -/
def isCooldown : Event → Bool
  | Event.cooldown _ => true
  | _ => false

-- Sanity checks on concrete inputs (the spec's scenario data).
example : is_valid_email "a@b.com" = true := rfl
example : is_valid_email "not-an-email" = false := rfl
example : is_valid_email "" = false := rfl
example : is_valid_email "a@b.c" = false := rfl
example : is_valid_email "user.name+tag@mail-server.example.org" = true := rfl
example : is_valid_email "a@@b.com" = false := rfl
example : is_valid_email "a@.com" = false := rfl

/-! ### Helper lemmas about the embedding -/

/-- Counter value after the backoff gate. -/
def gateFails (s : PState) : Nat :=
  if MAX_AUTH_FAILURES ≤ s.auth_failures then 0 else s.auth_failures

/-- Events emitted by the backoff gate. -/
def gateEv (s : PState) : List Event :=
  if MAX_AUTH_FAILURES ≤ s.auth_failures then [Event.cooldown 900] else []

theorem backoff_gate_eq (s : PState) :
    backoff_gate s = (⟨s.tickets, gateFails s⟩, gateEv s) := by
  unfold backoff_gate gateFails gateEv
  split <;> rfl

theorem gateEv_eq_cooldowns (s : PState) (e : Event) (he : e ∈ gateEv s) :
    e = Event.cooldown 900 := by
  unfold gateEv at he
  split at he <;> simp_all

theorem sqlUpdate_other (tbl : TicketTable) (id : Nat) (cond : Ticket → Bool)
    (f : Ticket → Ticket) (j : Nat) (hj : j ≠ id) :
    sqlUpdate tbl id cond f j = tbl j := by
  unfold sqlUpdate
  cases h : tbl j <;> simp [h, hj]

theorem sqlUpdate_at (tbl : TicketTable) (id : Nat) (cond : Ticket → Bool)
    (f : Ticket → Ticket) (t : Ticket) (h : tbl id = some t) :
    sqlUpdate tbl id cond f id = if cond t then some (f t) else some t := by
  simp [sqlUpdate, h]

theorem sqlUpdate_at_none (tbl : TicketTable) (id : Nat) (cond : Ticket → Bool)
    (f : Ticket → Ticket) (j : Nat) (h : tbl j = none) :
    sqlUpdate tbl id cond f j = none := by
  simp [sqlUpdate, h]

theorem sqlUpdate_isSome (tbl : TicketTable) (id : Nat) (cond : Ticket → Bool)
    (f : Ticket → Ticket) (j : Nat) :
    (sqlUpdate tbl id cond f j).isSome = (tbl j).isSome := by
  unfold sqlUpdate
  cases h : tbl j with
  | none => simp [h]
  | some t =>
    simp only [h]
    split
    · split <;> simp
    · simp

theorem process_ticket_eq (s : PState) (env : SendEnv) (now i : Nat) :
    process_ticket s env now i =
      ((afterFetch (claimUpd s.tickets i) (gateFails s) env now i).1,
       gateEv s ++ [Event.claimUpdate i, Event.fetchQuery i] ++
         (afterFetch (claimUpd s.tickets i) (gateFails s) env now i).2) := by
  simp only [process_ticket, backoff_gate_eq]

theorem claim_fetch_absent (tbl : TicketTable) (i : Nat) (h : tbl i = none) :
    (claimUpd tbl i) i = none ∧ fetchTicket (claimUpd tbl i) i = none := by
  have h1 : (claimUpd tbl i) i = none := sqlUpdate_at_none tbl i _ _ i h
  exact ⟨h1, by simp [fetchTicket, h1]⟩

theorem claim_fetch_completed (tbl : TicketTable) (i : Nat) (t : Ticket)
    (h : tbl i = some t) (hs : t.status = Status.completed) :
    (claimUpd tbl i) i = some t ∧ fetchTicket (claimUpd tbl i) i = none := by
  have h1 : (claimUpd tbl i) i = some t := by
    simp [claimUpd, sqlUpdate, h, hs]
  refine ⟨h1, ?_⟩
  simp [fetchTicket, h1, hs]

theorem claim_fetch_active (tbl : TicketTable) (i : Nat) (t : Ticket)
    (h : tbl i = some t)
    (hs : t.status = Status.received ∨ t.status = Status.processing) :
    (claimUpd tbl i) i = some { t with status := Status.processing } ∧
    fetchTicket (claimUpd tbl i) i = some (t.email, t.subject, t.body) := by
  have h1 : (claimUpd tbl i) i = some { t with status := Status.processing } := by
    rcases hs with hs | hs
    · simp [claimUpd, sqlUpdate, h, hs]
    · obtain ⟨e, sub, b, st, sa⟩ := t
      cases hs
      simp [claimUpd, sqlUpdate, h]
  exact ⟨h1, by simp [fetchTicket, h1]⟩

theorem process_ticket_noRow (s : PState) (env : SendEnv) (now i : Nat)
    (h : fetchTicket (claimUpd s.tickets i) i = none) :
    process_ticket s env now i =
      (⟨claimUpd s.tickets i, gateFails s⟩,
       gateEv s ++ [Event.claimUpdate i, Event.fetchQuery i]) := by
  rw [process_ticket_eq]
  simp [afterFetch, h]

theorem process_ticket_reject (s : PState) (env : SendEnv) (now i : Nat)
    (row : String × String × String)
    (h : fetchTicket (claimUpd s.tickets i) i = some row)
    (hv : is_valid_email row.1 = false) :
    process_ticket s env now i =
      (⟨rejectUpd now (claimUpd s.tickets i) i, gateFails s⟩,
       gateEv s ++ [Event.claimUpdate i, Event.fetchQuery i, Event.rejectUpdate i]) := by
  rw [process_ticket_eq]
  simp [afterFetch, h, hv]

theorem process_ticket_sendOk (s : PState) (env : SendEnv) (now i : Nat)
    (row : String × String × String)
    (h : fetchTicket (claimUpd s.tickets i) i = some row)
    (hv : is_valid_email row.1 = true)
    (hsend : send_email env row.1 row.2.1 row.2.2 = true) :
    process_ticket s env now i =
      (⟨completeUpd now (claimUpd s.tickets i) i, 0⟩,
       gateEv s ++ [Event.claimUpdate i, Event.fetchQuery i,
         Event.send i (smtp_perform_called env) true, Event.completeUpdate i]) := by
  rw [process_ticket_eq]
  simp [afterFetch, h, hv, hsend]

theorem process_ticket_sendFail (s : PState) (env : SendEnv) (now i : Nat)
    (row : String × String × String)
    (h : fetchTicket (claimUpd s.tickets i) i = some row)
    (hv : is_valid_email row.1 = true)
    (hsend : send_email env row.1 row.2.1 row.2.2 = false) :
    process_ticket s env now i =
      (⟨claimUpd s.tickets i, gateFails s + 1⟩,
       gateEv s ++ [Event.claimUpdate i, Event.fetchQuery i,
         Event.send i (smtp_perform_called env) false]) := by
  rw [process_ticket_eq]
  simp [afterFetch, h, hv, hsend]

theorem fetchTicket_some (tbl : TicketTable) (i : Nat) (row : String × String × String)
    (h : fetchTicket tbl i = some row) :
    ∃ t, tbl i = some t ∧ t.status = Status.processing ∧
      row = (t.email, t.subject, t.body) := by
  unfold fetchTicket at h
  split at h
  · cases h
  · next t ht =>
    split at h
    · next hst => exact ⟨t, ht, hst, (Option.some_injective _ h).symm⟩
    · cases h

/-- Every invocation of `process_ticket` takes exactly one of four paths:
fetch finds no processing row; invalid address; send succeeds; send fails. -/
theorem process_ticket_paths (s : PState) (env : SendEnv) (now i : Nat) :
    (process_ticket s env now i =
      (⟨claimUpd s.tickets i, gateFails s⟩,
       gateEv s ++ [Event.claimUpdate i, Event.fetchQuery i])) ∨
    (∃ row, fetchTicket (claimUpd s.tickets i) i = some row ∧
      is_valid_email row.1 = false ∧
      process_ticket s env now i =
        (⟨rejectUpd now (claimUpd s.tickets i) i, gateFails s⟩,
         gateEv s ++ [Event.claimUpdate i, Event.fetchQuery i,
           Event.rejectUpdate i])) ∨
    (∃ row, fetchTicket (claimUpd s.tickets i) i = some row ∧
      is_valid_email row.1 = true ∧
      send_email env row.1 row.2.1 row.2.2 = true ∧
      process_ticket s env now i =
        (⟨completeUpd now (claimUpd s.tickets i) i, 0⟩,
         gateEv s ++ [Event.claimUpdate i, Event.fetchQuery i,
           Event.send i (smtp_perform_called env) true, Event.completeUpdate i])) ∨
    (∃ row, fetchTicket (claimUpd s.tickets i) i = some row ∧
      is_valid_email row.1 = true ∧
      send_email env row.1 row.2.1 row.2.2 = false ∧
      process_ticket s env now i =
        (⟨claimUpd s.tickets i, gateFails s + 1⟩,
         gateEv s ++ [Event.claimUpdate i, Event.fetchQuery i,
           Event.send i (smtp_perform_called env) false])) := by
  cases hfetch : fetchTicket (claimUpd s.tickets i) i with
  | none => exact Or.inl (process_ticket_noRow s env now i hfetch)
  | some row =>
    cases hv : is_valid_email row.1 with
    | false =>
      exact Or.inr (Or.inl ⟨row, rfl, hv, process_ticket_reject s env now i row hfetch hv⟩)
    | true =>
      cases hsend : send_email env row.1 row.2.1 row.2.2 with
      | true =>
        exact Or.inr (Or.inr (Or.inl
          ⟨row, rfl, hv, hsend, process_ticket_sendOk s env now i row hfetch hv hsend⟩))
      | false =>
        exact Or.inr (Or.inr (Or.inr
          ⟨row, rfl, hv, hsend, process_ticket_sendFail s env now i row hfetch hv hsend⟩))

/-- Ticket rows other than the invoked id are never touched. -/
theorem process_ticket_frame (s : PState) (env : SendEnv) (now i j : Nat)
    (hj : j ≠ i) :
    (process_ticket s env now i).1.tickets j = s.tickets j := by
  rcases process_ticket_paths s env now i with h | ⟨row, _, _, h⟩ | ⟨row, _, _, _, h⟩ | ⟨row, _, _, _, h⟩ <;>
    rw [h] <;>
    simp [claimUpd, rejectUpd, completeUpd, sqlUpdate_other _ _ _ _ _ hj]

theorem rejectUpd_at (now : Nat) (tbl : TicketTable) (i : Nat) (t : Ticket)
    (h : tbl i = some t) :
    rejectUpd now tbl i i = some { t with status := Status.processing, sent_at := some now } := by
  simp [rejectUpd, sqlUpdate, h]

theorem completeUpd_at (now : Nat) (tbl : TicketTable) (i : Nat) (t : Ticket)
    (h : tbl i = some t) :
    completeUpd now tbl i i = some { t with sent_at := some now, status := Status.completed } := by
  simp [completeUpd, sqlUpdate, h]

theorem send_not_mem_gateEv (s : PState) (k : Nat) (a ok : Bool) :
    Event.send k a ok ∉ gateEv s := by
  intro h
  exact Event.noConfusion (gateEv_eq_cooldowns s _ h)

/-- The trace of an invocation is the gate events, the claim and fetch
queries, then one of the four dispatch tails. -/
theorem trace_shape (s : PState) (env : SendEnv) (now i : Nat) :
    ∃ L, (process_ticket s env now i).2 =
        gateEv s ++ [Event.claimUpdate i, Event.fetchQuery i] ++ L ∧
      (L = [] ∨ L = [Event.rejectUpdate i] ∨
       L = [Event.send i (smtp_perform_called env) true, Event.completeUpdate i] ∨
       L = [Event.send i (smtp_perform_called env) false]) := by
  rcases process_ticket_paths s env now i with h | ⟨row, hf, hv, h⟩ | ⟨row, hf, hv, hs, h⟩ | ⟨row, hf, hv, hs, h⟩
  · exact ⟨[], by rw [h]; simp, Or.inl rfl⟩
  · exact ⟨[Event.rejectUpdate i], by rw [h]; simp, Or.inr (Or.inl rfl)⟩
  · exact ⟨[Event.send i (smtp_perform_called env) true, Event.completeUpdate i],
      by rw [h]; simp, Or.inr (Or.inr (Or.inl rfl))⟩
  · exact ⟨[Event.send i (smtp_perform_called env) false],
      by rw [h]; simp, Or.inr (Or.inr (Or.inr rfl))⟩


theorem mem_gate_or_tail (s : PState) (tail : List Event) (e : Event)
    (he : e ∈ gateEv s ++ tail) : e = Event.cooldown 900 ∨ e ∈ tail := by
  rcases List.mem_append.1 he with h | h
  · exact Or.inl (gateEv_eq_cooldowns s e h)
  · exact Or.inr h

/-- Every event of an invocation's trace concerns the invoked id (or is the
cooldown wait or one of the two queries). -/
theorem event_cases_of_mem_trace (s : PState) (env : SendEnv) (now i : Nat)
    (e : Event) (he : e ∈ (process_ticket s env now i).2) :
    e = Event.cooldown 900 ∨ e = Event.claimUpdate i ∨ e = Event.fetchQuery i ∨
    e = Event.rejectUpdate i ∨ e = Event.completeUpdate i ∨
    ∃ a ok, e = Event.send i a ok := by
  obtain ⟨L, hL, hcases⟩ := trace_shape s env now i
  rw [hL, List.append_assoc] at he
  rcases mem_gate_or_tail s _ e he with h | h
  · exact Or.inl h
  · rcases List.mem_cons.1 h with h | h
    · exact Or.inr (Or.inl h)
    · rcases List.mem_cons.1 h with h | h
      · exact Or.inr (Or.inr (Or.inl h))
      · rcases hcases with rfl | rfl | rfl | rfl
        · exact absurd h (List.not_mem_nil e)
        · rcases List.mem_cons.1 h with h | h
          · exact Or.inr (Or.inr (Or.inr (Or.inl h)))
          · exact absurd h (List.not_mem_nil e)
        · rcases List.mem_cons.1 h with h | h
          · exact Or.inr (Or.inr (Or.inr (Or.inr (Or.inr ⟨_, _, h⟩))))
          · rcases List.mem_cons.1 h with h | h
            · exact Or.inr (Or.inr (Or.inr (Or.inr (Or.inl h))))
            · exact absurd h (List.not_mem_nil e)
        · rcases List.mem_cons.1 h with h | h
          · exact Or.inr (Or.inr (Or.inr (Or.inr (Or.inr ⟨_, _, h⟩))))
          · exact absurd h (List.not_mem_nil e)

theorem send_event_id (s : PState) (env : SendEnv) (now i k : Nat) (a ok : Bool)
    (h : Event.send k a ok ∈ (process_ticket s env now i).2) : k = i := by
  rcases event_cases_of_mem_trace s env now i _ h with h1 | h1 | h1 | h1 | h1 | ⟨a', ok', h1⟩
  · exact Event.noConfusion h1
  · exact Event.noConfusion h1
  · exact Event.noConfusion h1
  · exact Event.noConfusion h1
  · exact Event.noConfusion h1
  · injection h1

/-- A successful send in an invocation leaves the invoked ticket completed. -/
theorem success_send_completes (s : PState) (env : SendEnv) (now i : Nat) (a : Bool)
    (h : Event.send i a true ∈ (process_ticket s env now i).2) :
    ∃ u, (process_ticket s env now i).1.tickets i = some u ∧
      u.status = Status.completed := by
  rcases process_ticket_paths s env now i with h1 | ⟨row, hf, hv, h1⟩ | ⟨row, hf, hv, hs, h1⟩ | ⟨row, hf, hv, hs, h1⟩
  · rw [h1] at h
    rcases mem_gate_or_tail s _ _ h with h2 | h2
    · exact Event.noConfusion h2
    · rcases List.mem_cons.1 h2 with h3 | h3
      · exact Event.noConfusion h3
      · rcases List.mem_cons.1 h3 with h4 | h4
        · exact Event.noConfusion h4
        · exact absurd h4 (List.not_mem_nil _)
  · rw [h1] at h
    rcases mem_gate_or_tail s _ _ h with h2 | h2
    · exact Event.noConfusion h2
    · rcases List.mem_cons.1 h2 with h3 | h3
      · exact Event.noConfusion h3
      · rcases List.mem_cons.1 h3 with h4 | h4
        · exact Event.noConfusion h4
        · rcases List.mem_cons.1 h4 with h5 | h5
          · exact Event.noConfusion h5
          · exact absurd h5 (List.not_mem_nil _)
  · obtain ⟨t, ht, hst, hrow⟩ := fetchTicket_some _ _ _ hf
    rw [h1]
    exact ⟨_, completeUpd_at now _ i t ht, rfl⟩
  · rw [h1] at h
    rcases mem_gate_or_tail s _ _ h with h2 | h2
    · exact Event.noConfusion h2
    · rcases List.mem_cons.1 h2 with h3 | h3
      · exact Event.noConfusion h3
      · rcases List.mem_cons.1 h3 with h4 | h4
        · exact Event.noConfusion h4
        · rcases List.mem_cons.1 h4 with h5 | h5
          · injection h5 with h6 h7 h8
            exact Bool.noConfusion h8
          · exact absurd h5 (List.not_mem_nil _)

/-- A completed ticket is never modified again and never sent again: the
claim update skips it (status is not `received`), and the fetch filter
(`status = 'processing'`) returns zero rows, so the invocation no-ops. -/
theorem completed_stable (s : PState) (env : SendEnv) (now j i : Nat) (t : Ticket)
    (h : s.tickets i = some t) (hst : t.status = Status.completed) :
    (process_ticket s env now j).1.tickets i = some t ∧
    ∀ a ok, Event.send i a ok ∉ (process_ticket s env now j).2 := by
  by_cases hji : i = j
  · subst hji
    obtain ⟨hc, hf⟩ := claim_fetch_completed s.tickets i t h hst
    rw [process_ticket_noRow s env now i hf]
    refine ⟨hc, ?_⟩
    intro a ok hmem
    rcases mem_gate_or_tail s _ _ hmem with h2 | h2
    · exact Event.noConfusion h2
    · rcases List.mem_cons.1 h2 with h3 | h3
      · exact Event.noConfusion h3
      · rcases List.mem_cons.1 h3 with h4 | h4
        · exact Event.noConfusion h4
        · exact absurd h4 (List.not_mem_nil _)
  · refine ⟨?_, ?_⟩
    · rw [process_ticket_frame s env now j i hji]
      exact h
    · intro a ok hmem
      exact hji (send_event_id s env now j i a ok hmem)

theorem run_nil (s : PState) : run s [] = (s, []) := rfl

theorem run_cons (s : PState) (inv : Invocation) (rest : List Invocation) :
    run s (inv :: rest) =
      ((run (process_ticket s inv.env inv.now inv.ticket_id).1 rest).1,
       (process_ticket s inv.env inv.now inv.ticket_id).2 ++
         (run (process_ticket s inv.env inv.now inv.ticket_id).1 rest).2) := rfl

theorem run_append (s : PState) (xs ys : List Invocation) :
    run s (xs ++ ys) =
      ((run (run s xs).1 ys).1, (run s xs).2 ++ (run (run s xs).1 ys).2) := by
  induction xs generalizing s with
  | nil => simp [run_nil, run_cons]
  | cons x xs ih =>
    rw [List.cons_append, run_cons, run_cons, ih]
    simp [List.append_assoc]

/-- Once a ticket is completed, no later invocation emits a successful send
for it, and its row never changes. -/
theorem run_completed_no_success (s : PState) (invs : List Invocation) (i : Nat)
    (t : Ticket) (h : s.tickets i = some t) (hst : t.status = Status.completed) :
    (run s invs).1.tickets i = some t ∧
    (run s invs).2.countP (isSuccessSend i) = 0 := by
  induction invs generalizing s with
  | nil => exact ⟨h, rfl⟩
  | cons inv rest ih =>
    obtain ⟨hstable, hnosend⟩ :=
      completed_stable s inv.env inv.now inv.ticket_id i t h hst
    obtain ⟨ih1, ih2⟩ := ih (process_ticket s inv.env inv.now inv.ticket_id).1 hstable
    rw [run_cons]
    refine ⟨ih1, ?_⟩
    rw [List.countP_append, ih2, Nat.add_zero]
    rw [List.countP_eq_zero]
    intro e he
    intro hpe
    have : ∃ a ok, e = Event.send i a ok ∧ ok = true := by
      cases e with
      | send k a ok =>
        have hk : (k == i && ok) = true := hpe
        have hki : k = i := eq_of_beq (Bool.and_elim_left hk)
        have hok : ok = true := Bool.and_elim_right hk
        exact ⟨a, ok, by rw [hki], hok⟩
      | cooldown n => exact Bool.noConfusion hpe
      | claimUpdate k => exact Bool.noConfusion hpe
      | fetchQuery k => exact Bool.noConfusion hpe
      | rejectUpdate k => exact Bool.noConfusion hpe
      | completeUpdate k => exact Bool.noConfusion hpe
    obtain ⟨a, ok, rfl, rfl⟩ := this
    exact hnosend a true he

theorem isSuccessSend_eq (i : Nat) (e : Event) (hpe : isSuccessSend i e = true) :
    ∃ a, e = Event.send i a true := by
  cases e with
  | send k a ok =>
    have hk : (k == i && ok) = true := hpe
    have hki : k = i := eq_of_beq (Bool.and_elim_left hk)
    have hok : ok = true := Bool.and_elim_right hk
    exact ⟨a, by rw [hki, hok]⟩
  | cooldown n => exact Bool.noConfusion hpe
  | claimUpdate k => exact Bool.noConfusion hpe
  | fetchQuery k => exact Bool.noConfusion hpe
  | rejectUpdate k => exact Bool.noConfusion hpe
  | completeUpdate k => exact Bool.noConfusion hpe

theorem gateEv_countP_success (s : PState) (i : Nat) :
    (gateEv s).countP (isSuccessSend i) = 0 := by
  unfold gateEv
  split <;> simp [List.countP_cons, isSuccessSend]

/-- One invocation performs at most one successful send for any id. -/
theorem invocation_countP_success_le_one (s : PState) (env : SendEnv)
    (now j i : Nat) :
    (process_ticket s env now j).2.countP (isSuccessSend i) ≤ 1 := by
  obtain ⟨L, hL, hcases⟩ := trace_shape s env now j
  rw [hL, List.countP_append, List.countP_append]
  have h1 : (gateEv s).countP (isSuccessSend i) = 0 := gateEv_countP_success s i
  have h2 : ([Event.claimUpdate j, Event.fetchQuery j]).countP (isSuccessSend i) = 0 := by
    simp [List.countP_cons, isSuccessSend]
  rw [h1, h2]
  rcases hcases with rfl | rfl | rfl | rfl
  · simp
  · simp [List.countP_cons, isSuccessSend]
  · by_cases hji : j = i
    · subst hji
      simp [List.countP_cons, isSuccessSend]
    · simp [List.countP_cons, isSuccessSend, hji]
  · simp [List.countP_cons, isSuccessSend]

/-! ### Claim theorems -/

/-- C2: for every ticket id and every sequence of `process_ticket`
invocations, at most one successful Mail Dispatcher send call occurs for
that id (in particular at most one before the ticket's status reaches
`completed`): the first successful send marks the ticket `completed` in the
same invocation, and a completed ticket is never fetched or sent again. -/
theorem claim_C2_no_double_send (s : PState) (invs : List Invocation) (i : Nat) :
    (run s invs).2.countP (isSuccessSend i) ≤ 1 := by
  induction invs generalizing s with
  | nil => simp [run_nil]
  | cons inv rest ih =>
    rw [run_cons, List.countP_append]
    by_cases hzero :
        (process_ticket s inv.env inv.now inv.ticket_id).2.countP (isSuccessSend i) = 0
    · rw [hzero, Nat.zero_add]
      exact ih _
    · have hpos :
          0 < (process_ticket s inv.env inv.now inv.ticket_id).2.countP (isSuccessSend i) :=
        Nat.pos_of_ne_zero hzero
      obtain ⟨e, hmem, hpe⟩ := List.countP_pos_iff.1 hpos
      obtain ⟨a, rfl⟩ := isSuccessSend_eq i e hpe
      have hid : i = inv.ticket_id :=
        send_event_id s inv.env inv.now inv.ticket_id i a true hmem
      subst hid
      obtain ⟨u, hu, hust⟩ :=
        success_send_completes s inv.env inv.now inv.ticket_id a hmem
      obtain ⟨hstable, hcount0⟩ :=
        run_completed_no_success (process_ticket s inv.env inv.now inv.ticket_id).1
          rest inv.ticket_id u hu hust
      rw [hcount0, Nat.add_zero]
      exact invocation_countP_success_le_one s inv.env inv.now inv.ticket_id inv.ticket_id

theorem gateFails_succ_le (s : PState) : gateFails s + 1 ≤ MAX_AUTH_FAILURES := by
  unfold gateFails MAX_AUTH_FAILURES
  split <;> omega

/-- Any single invocation leaves the counter at most at the threshold. -/
theorem process_ticket_fails_le (s : PState) (env : SendEnv) (now i : Nat) :
    (process_ticket s env now i).1.auth_failures ≤ MAX_AUTH_FAILURES := by
  have hg := gateFails_succ_le s
  rcases process_ticket_paths s env now i with h | ⟨row, _, _, h⟩ | ⟨row, _, _, _, h⟩ | ⟨row, _, _, _, h⟩ <;>
    rw [h] <;> simp <;> omega

/-- C10: the process-wide failure counter, observed at any point between
invocations in any run from process launch, satisfies 0 ≤ counter ≤ 5: the
backoff gate resets it before it could be pushed past the threshold. -/
theorem claim_C10_counter_bounded (tbl : TicketTable) (invs : List Invocation) :
    0 ≤ (run (initial_state tbl) invs).1.auth_failures ∧
    (run (initial_state tbl) invs).1.auth_failures ≤ MAX_AUTH_FAILURES := by
  refine ⟨Nat.zero_le _, ?_⟩
  cases invs with
  | nil =>
    show (initial_state tbl).auth_failures ≤ MAX_AUTH_FAILURES
    simp [initial_state, MAX_AUTH_FAILURES]
  | cons inv rest =>
    rw [run_cons]
    have hstep : ∀ (s : PState), s.auth_failures ≤ MAX_AUTH_FAILURES →
        ∀ l : List Invocation, (run s l).1.auth_failures ≤ MAX_AUTH_FAILURES := by
      intro s hs l
      induction l generalizing s with
      | nil => exact hs
      | cons v vs ih =>
        rw [run_cons]
        exact ih _ (process_ticket_fails_le s v.env v.now v.ticket_id)
    exact hstep _ (process_ticket_fails_le _ inv.env inv.now inv.ticket_id) rest

/-- C4: if the counter has reached the threshold at entry, the invocation
begins with exactly one 900-second (15-minute) cooldown wait, and the
counter is 0 immediately after the gate; below the threshold no wait
occurs. -/
theorem claim_C4_backoff_gate (s : PState) (env : SendEnv) (now i : Nat) :
    (MAX_AUTH_FAILURES ≤ s.auth_failures →
      (process_ticket s env now i).2.head? = some (Event.cooldown 900) ∧
      (process_ticket s env now i).2.countP isCooldown = 1 ∧
      (backoff_gate s).1.auth_failures = 0) ∧
    (s.auth_failures < MAX_AUTH_FAILURES →
      (process_ticket s env now i).2.countP isCooldown = 0) := by
  obtain ⟨L, hL, hcases⟩ := trace_shape s env now i
  have hl0 : L.countP isCooldown = 0 := by
    rcases hcases with rfl | rfl | rfl | rfl <;> simp [List.countP_cons, isCooldown]
  have hcf : ([Event.claimUpdate i, Event.fetchQuery i]).countP isCooldown = 0 := by
    simp [List.countP_cons, isCooldown]
  constructor
  · intro h5
    have hgev : gateEv s = [Event.cooldown 900] := by
      unfold gateEv
      rw [if_pos h5]
    refine ⟨?_, ?_, ?_⟩
    · rw [hL, hgev]
      rfl
    · rw [hL, List.countP_append, List.countP_append, hgev, hl0, hcf]
      simp [List.countP_cons, isCooldown]
    · rw [backoff_gate_eq]
      show gateFails s = 0
      unfold gateFails
      rw [if_pos h5]
  · intro h5
    have hgev : gateEv s = [] := by
      unfold gateEv
      rw [if_neg (Nat.not_le.2 h5)]
    rw [hL, List.countP_append, List.countP_append, hgev, hl0, hcf]
    rfl

/-- Witness for C4 at concrete inputs: counter 5 trips the gate; counter 0
does not. -/
theorem claim_C4_backoff_gate_witness :
    ((process_ticket ⟨fun _ => none, 5⟩ ⟨true, true⟩ 0 1).2.head? =
        some (Event.cooldown 900) ∧
     (process_ticket ⟨fun _ => none, 5⟩ ⟨true, true⟩ 0 1).2.countP isCooldown = 1 ∧
     (backoff_gate ⟨fun _ => none, 5⟩).1.auth_failures = 0) ∧
    (process_ticket ⟨fun _ => none, 0⟩ ⟨true, true⟩ 0 1).2.countP isCooldown = 0 :=
  ⟨(claim_C4_backoff_gate ⟨fun _ => none, 5⟩ ⟨true, true⟩ 0 1).1 (by decide),
   (claim_C4_backoff_gate ⟨fun _ => none, 0⟩ ⟨true, true⟩ 0 1).2 (by decide)⟩

/-- C7: a `received` ticket with a valid address whose claim, fetch and send
all succeed ends `completed` with `sent_at` stamped (non-null), and the
failure counter is reset to 0. -/
theorem claim_C7_success_path (s : PState) (env : SendEnv) (now i : Nat) (t : Ticket)
    (h : s.tickets i = some t) (hst : t.status = Status.received)
    (hv : is_valid_email t.email = true)
    (hinit : env.curlInit = true) (hok : env.performOk = true) :
    (process_ticket s env now i).1.tickets i =
      some ⟨t.email, t.subject, t.body, Status.completed, some now⟩ ∧
    (process_ticket s env now i).1.auth_failures = 0 := by
  obtain ⟨hc, hf⟩ := claim_fetch_active s.tickets i t h (Or.inl hst)
  have hsend : send_email env t.email t.subject t.body = true := by
    simp [send_email, hinit, hok]
  rw [process_ticket_sendOk s env now i (t.email, t.subject, t.body) hf hv hsend]
  refine ⟨?_, rfl⟩
  show completeUpd now (claimUpd s.tickets i) i i = _
  rw [completeUpd_at now (claimUpd s.tickets i) i _ hc]

/-- Witness for C7: the spec scenario, ticket 42 with `a@b.com`. -/
theorem claim_C7_success_path_witness :
    (process_ticket
        (initial_state (fun j => if j = 42 then
          some ⟨"a@b.com", "S", "B", Status.received, none⟩ else none))
        ⟨true, true⟩ 5 42).1.tickets 42 =
      some ⟨"a@b.com", "S", "B", Status.completed, some 5⟩ ∧
    (process_ticket
        (initial_state (fun j => if j = 42 then
          some ⟨"a@b.com", "S", "B", Status.received, none⟩ else none))
        ⟨true, true⟩ 5 42).1.auth_failures = 0 :=
  claim_C7_success_path _ ⟨true, true⟩ 5 42 ⟨"a@b.com", "S", "B", Status.received, none⟩
    rfl rfl rfl rfl rfl

/-- C3: a fetched ticket whose address fails validation gets `sent_at`
stamped with status left `processing`, no send is ever attempted in that
invocation, and the failure counter is not incremented (it keeps its
post-gate value). -/
theorem claim_C3_invalid_address (s : PState) (env : SendEnv) (now i : Nat) (t : Ticket)
    (h : s.tickets i = some t)
    (hst : t.status = Status.received ∨ t.status = Status.processing)
    (hv : is_valid_email t.email = false) :
    (process_ticket s env now i).1.tickets i =
      some ⟨t.email, t.subject, t.body, Status.processing, some now⟩ ∧
    (∀ e ∈ (process_ticket s env now i).2, isSendEvent e = false) ∧
    (process_ticket s env now i).1.auth_failures = gateFails s := by
  obtain ⟨hc, hf⟩ := claim_fetch_active s.tickets i t h hst
  rw [process_ticket_reject s env now i (t.email, t.subject, t.body) hf hv]
  refine ⟨?_, ?_, rfl⟩
  · show rejectUpd now (claimUpd s.tickets i) i i = _
    rw [rejectUpd_at now (claimUpd s.tickets i) i _ hc]
  · intro e he
    rcases mem_gate_or_tail s _ e he with rfl | h2
    · rfl
    · rcases List.mem_cons.1 h2 with rfl | h3
      · rfl
      · rcases List.mem_cons.1 h3 with rfl | h4
        · rfl
        · rcases List.mem_cons.1 h4 with rfl | h5
          · rfl
          · exact absurd h5 (List.not_mem_nil e)

/-- Witness for C3: the spec scenario, ticket 9 with `not-an-email`. -/
theorem claim_C3_invalid_address_witness :
    (process_ticket
        (initial_state (fun j => if j = 9 then
          some ⟨"not-an-email", "s", "b", Status.received, none⟩ else none))
        ⟨true, true⟩ 5 9).1.tickets 9 =
      some ⟨"not-an-email", "s", "b", Status.processing, some 5⟩ ∧
    (∀ e ∈ (process_ticket
        (initial_state (fun j => if j = 9 then
          some ⟨"not-an-email", "s", "b", Status.received, none⟩ else none))
        ⟨true, true⟩ 5 9).2, isSendEvent e = false) ∧
    (process_ticket
        (initial_state (fun j => if j = 9 then
          some ⟨"not-an-email", "s", "b", Status.received, none⟩ else none))
        ⟨true, true⟩ 5 9).1.auth_failures =
      gateFails (initial_state (fun j => if j = 9 then
          some ⟨"not-an-email", "s", "b", Status.received, none⟩ else none)) :=
  claim_C3_invalid_address _ ⟨true, true⟩ 5 9
    ⟨"not-an-email", "s", "b", Status.received, none⟩ rfl (Or.inl rfl) rfl

/-- C9: when `curl_easy_init` yields no handle, `send_email` reports
success without `curl_easy_perform` ever being reached, so the ticket is
marked `completed` with `sent_at` stamped although no delivery was
attempted. -/
theorem claim_C9_curl_init_failure (p : Bool) (toAddr subject body : String)
    (s : PState) (now i : Nat) (t : Ticket)
    (h : s.tickets i = some t)
    (hst : t.status = Status.received)
    (hv : is_valid_email t.email = true) :
    send_email ⟨false, p⟩ toAddr subject body = true ∧
    smtp_perform_called ⟨false, p⟩ = false ∧
    (process_ticket s ⟨false, p⟩ now i).1.tickets i =
      some ⟨t.email, t.subject, t.body, Status.completed, some now⟩ ∧
    Event.send i false true ∈ (process_ticket s ⟨false, p⟩ now i).2 := by
  obtain ⟨hc, hf⟩ := claim_fetch_active s.tickets i t h (Or.inl hst)
  have hsend : send_email ⟨false, p⟩ t.email t.subject t.body = true := rfl
  rw [process_ticket_sendOk s ⟨false, p⟩ now i (t.email, t.subject, t.body) hf hv hsend]
  refine ⟨rfl, rfl, ?_, ?_⟩
  · show completeUpd now (claimUpd s.tickets i) i i = _
    rw [completeUpd_at now (claimUpd s.tickets i) i _ hc]
  · simp [List.mem_append, smtp_perform_called]

/-- Witness for C9 at concrete inputs. -/
theorem claim_C9_curl_init_failure_witness :
    send_email ⟨false, true⟩ "x@y.org" "s" "b" = true ∧
    smtp_perform_called ⟨false, true⟩ = false ∧
    (process_ticket
        (initial_state (fun j => if j = 3 then
          some ⟨"x@y.org", "s", "b", Status.received, none⟩ else none))
        ⟨false, true⟩ 7 3).1.tickets 3 =
      some ⟨"x@y.org", "s", "b", Status.completed, some 7⟩ ∧
    Event.send 3 false true ∈ (process_ticket
        (initial_state (fun j => if j = 3 then
          some ⟨"x@y.org", "s", "b", Status.received, none⟩ else none))
        ⟨false, true⟩ 7 3).2 :=
  claim_C9_curl_init_failure true "x@y.org" "s" "b" _ 7 3
    ⟨"x@y.org", "s", "b", Status.received, none⟩ rfl rfl rfl

/-- C1 counterexample: ticket 7 is already in status `processing`, so the
claim update affects no row; yet `process_ticket` does not return: it issues
the fetch, attempts a send, and completes the ticket — refuting "no fetch is
issued, no send is attempted, and no status change is made". -/
theorem claim_C1_counterexample :
    (initial_state (fun j => if j = 7 then
        some ⟨"a@b.com", "S", "B", Status.processing, none⟩ else none)).tickets 7 =
      some ⟨"a@b.com", "S", "B", Status.processing, none⟩ ∧
    Event.fetchQuery 7 ∈ (process_ticket
      (initial_state (fun j => if j = 7 then
        some ⟨"a@b.com", "S", "B", Status.processing, none⟩ else none))
      ⟨true, true⟩ 1 7).2 ∧
    Event.send 7 true true ∈ (process_ticket
      (initial_state (fun j => if j = 7 then
        some ⟨"a@b.com", "S", "B", Status.processing, none⟩ else none))
      ⟨true, true⟩ 1 7).2 ∧
    (process_ticket
      (initial_state (fun j => if j = 7 then
        some ⟨"a@b.com", "S", "B", Status.processing, none⟩ else none))
      ⟨true, true⟩ 1 7).1.tickets 7 =
      some ⟨"a@b.com", "S", "B", Status.completed, some 1⟩ := by
  refine ⟨rfl, ?_, ?_, rfl⟩
  · exact List.Mem.tail _ (List.Mem.head _)
  · exact List.Mem.tail _ (List.Mem.tail _ (List.Mem.head _))

/-- C1 (amended): when the claim update affects no row because the ticket is
absent or already `completed`, the invocation still issues the fetch query,
which finds no processing row, and then stops: no send is attempted, no
rejection or completion write is issued, and no ticket changes.  When the
claim affects no row because the ticket is already `processing`, the
invocation does not stop: the fetch finds the row and (for a valid address)
a send is attempted. -/
theorem claim_C1_amended (s : PState) (env : SendEnv) (now i : Nat) :
    ((s.tickets i = none ∨
        (∃ t, s.tickets i = some t ∧ t.status = Status.completed)) →
      (∀ j, (process_ticket s env now i).1.tickets j = s.tickets j) ∧
      Event.fetchQuery i ∈ (process_ticket s env now i).2 ∧
      (∀ e ∈ (process_ticket s env now i).2, isSendEvent e = false ∧
        e ≠ Event.rejectUpdate i ∧ e ≠ Event.completeUpdate i)) ∧
    (∀ t, s.tickets i = some t → t.status = Status.processing →
      is_valid_email t.email = true →
      Event.send i (smtp_perform_called env) (send_email env t.email t.subject t.body) ∈
        (process_ticket s env now i).2) := by
  constructor
  · intro hdead
    have hcf : (claimUpd s.tickets i) i = s.tickets i ∧
        fetchTicket (claimUpd s.tickets i) i = none := by
      rcases hdead with hnone | ⟨t, ht, hst⟩
      · obtain ⟨h1, h2⟩ := claim_fetch_absent s.tickets i hnone
        rw [hnone]
        exact ⟨h1, h2⟩
      · obtain ⟨h1, h2⟩ := claim_fetch_completed s.tickets i t ht hst
        rw [ht]
        exact ⟨h1, h2⟩
    obtain ⟨hci, hf⟩ := hcf
    rw [process_ticket_noRow s env now i hf]
    refine ⟨?_, ?_, ?_⟩
    · intro j
      by_cases hj : j = i
      · subst hj
        exact hci
      · exact sqlUpdate_other s.tickets i _ _ j hj
    · simp [List.mem_append]
    · intro e he
      rcases mem_gate_or_tail s _ e he with rfl | h2
      · exact ⟨rfl, fun hh => Event.noConfusion hh, fun hh => Event.noConfusion hh⟩
      · rcases List.mem_cons.1 h2 with rfl | h3
        · exact ⟨rfl, fun hh => Event.noConfusion hh, fun hh => Event.noConfusion hh⟩
        · rcases List.mem_cons.1 h3 with rfl | h4
          · exact ⟨rfl, fun hh => Event.noConfusion hh, fun hh => Event.noConfusion hh⟩
          · exact absurd h4 (List.not_mem_nil e)
  · intro t ht hst hv
    obtain ⟨hc, hf⟩ := claim_fetch_active s.tickets i t ht (Or.inr hst)
    cases hsend : send_email env t.email t.subject t.body with
    | true =>
      rw [process_ticket_sendOk s env now i (t.email, t.subject, t.body) hf hv hsend]
      simp [List.mem_append]
    | false =>
      rw [process_ticket_sendFail s env now i (t.email, t.subject, t.body) hf hv hsend]
      simp [List.mem_append]

/-- Witness for the amended C1: a completed ticket 7 is untouched though
fetched; a processing ticket 8 does get a send attempt. -/
theorem claim_C1_amended_witness :
    (process_ticket (initial_state (fun j => if j = 7 then
        some ⟨"a@b.com", "S", "B", Status.completed, some 0⟩ else none))
      ⟨true, true⟩ 1 7).1.tickets 7 =
      (initial_state (fun j => if j = 7 then
        some ⟨"a@b.com", "S", "B", Status.completed, some 0⟩ else none)).tickets 7 ∧
    Event.fetchQuery 7 ∈ (process_ticket (initial_state (fun j => if j = 7 then
        some ⟨"a@b.com", "S", "B", Status.completed, some 0⟩ else none))
      ⟨true, true⟩ 1 7).2 ∧
    Event.send 8 (smtp_perform_called ⟨true, true⟩)
        (send_email ⟨true, true⟩ "a@b.com" "S" "B") ∈
      (process_ticket (initial_state (fun j => if j = 8 then
        some ⟨"a@b.com", "S", "B", Status.processing, none⟩ else none))
      ⟨true, true⟩ 1 8).2 :=
  ⟨((claim_C1_amended _ ⟨true, true⟩ 1 7).1
      (Or.inr ⟨⟨"a@b.com", "S", "B", Status.completed, some 0⟩, rfl, rfl⟩)).1 7,
   ((claim_C1_amended _ ⟨true, true⟩ 1 7).1
      (Or.inr ⟨⟨"a@b.com", "S", "B", Status.completed, some 0⟩, rfl, rfl⟩)).2.1,
   (claim_C1_amended _ ⟨true, true⟩ 1 8).2
      ⟨"a@b.com", "S", "B", Status.processing, none⟩ rfl rfl rfl⟩

/-- C6 counterexample: ticket 3 starts in `received` and its send fails; the
invocation HAS performed a database write for that ticket (the claim update
moved it from `received` to `processing`), so "processTicket performs no
database write for that ticket ... the only state change is the counter
increment" is false as stated over the whole invocation. -/
theorem claim_C6_counterexample :
    (initial_state (fun j => if j = 3 then
        some ⟨"x@y.org", "s", "b", Status.received, none⟩ else none)).tickets 3 =
      some ⟨"x@y.org", "s", "b", Status.received, none⟩ ∧
    Event.send 3 true false ∈ (process_ticket
      (initial_state (fun j => if j = 3 then
        some ⟨"x@y.org", "s", "b", Status.received, none⟩ else none))
      ⟨true, false⟩ 2 3).2 ∧
    (process_ticket
      (initial_state (fun j => if j = 3 then
        some ⟨"x@y.org", "s", "b", Status.received, none⟩ else none))
      ⟨true, false⟩ 2 3).1.tickets 3 ≠
      (initial_state (fun j => if j = 3 then
        some ⟨"x@y.org", "s", "b", Status.received, none⟩ else none)).tickets 3 ∧
    (process_ticket
      (initial_state (fun j => if j = 3 then
        some ⟨"x@y.org", "s", "b", Status.received, none⟩ else none))
      ⟨true, false⟩ 2 3).1.tickets 3 =
      some ⟨"x@y.org", "s", "b", Status.processing, none⟩ := by
  refine ⟨rfl, ?_, ?_, rfl⟩
  · exact List.Mem.tail _ (List.Mem.tail _ (List.Mem.head _))
  · intro h
    have h1 : (⟨"x@y.org", "s", "b", Status.processing, none⟩ : Ticket) =
        ⟨"x@y.org", "s", "b", Status.received, none⟩ :=
      Option.some_injective _ h
    exact Status.noConfusion (congrArg Ticket.status h1)

/-- C6 (amended): when the send attempt fails, the only database write for
that ticket is the claim update (`received → processing`, when applicable):
afterwards its status is `processing`, its `sent_at` is unchanged from
entry, no rejection or completion write is issued, other rows are untouched,
and the failure counter — after any backoff-gate reset — is incremented by
exactly 1. -/
theorem claim_C6_amended (s : PState) (env : SendEnv) (now i : Nat) (t : Ticket)
    (h : s.tickets i = some t)
    (hst : t.status = Status.received ∨ t.status = Status.processing)
    (hv : is_valid_email t.email = true)
    (hinit : env.curlInit = true) (hfail : env.performOk = false) :
    (process_ticket s env now i).1.tickets i =
      some ⟨t.email, t.subject, t.body, Status.processing, t.sent_at⟩ ∧
    (∀ j, j ≠ i → (process_ticket s env now i).1.tickets j = s.tickets j) ∧
    (∀ e ∈ (process_ticket s env now i).2,
      e ≠ Event.rejectUpdate i ∧ e ≠ Event.completeUpdate i) ∧
    (process_ticket s env now i).1.auth_failures = gateFails s + 1 := by
  obtain ⟨hc, hf⟩ := claim_fetch_active s.tickets i t h hst
  have hsend : send_email env t.email t.subject t.body = false := by
    simp [send_email, hinit, hfail]
  rw [process_ticket_sendFail s env now i (t.email, t.subject, t.body) hf hv hsend]
  refine ⟨hc, ?_, ?_, rfl⟩
  · intro j hj
    exact sqlUpdate_other s.tickets i _ _ j hj
  · intro e he
    rcases mem_gate_or_tail s _ e he with rfl | h2
    · exact ⟨fun hh => Event.noConfusion hh, fun hh => Event.noConfusion hh⟩
    · rcases List.mem_cons.1 h2 with rfl | h3
      · exact ⟨fun hh => Event.noConfusion hh, fun hh => Event.noConfusion hh⟩
      · rcases List.mem_cons.1 h3 with rfl | h4
        · exact ⟨fun hh => Event.noConfusion hh, fun hh => Event.noConfusion hh⟩
        · rcases List.mem_cons.1 h4 with rfl | h5
          · exact ⟨fun hh => Event.noConfusion hh, fun hh => Event.noConfusion hh⟩
          · exact absurd h5 (List.not_mem_nil e)

/-- Witness for the amended C6 at concrete inputs. -/
theorem claim_C6_amended_witness :
    (process_ticket
      (initial_state (fun j => if j = 3 then
        some ⟨"x@y.org", "s", "b", Status.received, none⟩ else none))
      ⟨true, false⟩ 2 3).1.tickets 3 =
      some ⟨"x@y.org", "s", "b", Status.processing, none⟩ ∧
    (process_ticket
      (initial_state (fun j => if j = 3 then
        some ⟨"x@y.org", "s", "b", Status.received, none⟩ else none))
      ⟨true, false⟩ 2 3).1.tickets 0 =
      (initial_state (fun j => if j = 3 then
        some ⟨"x@y.org", "s", "b", Status.received, none⟩ else none)).tickets 0 ∧
    (process_ticket
      (initial_state (fun j => if j = 3 then
        some ⟨"x@y.org", "s", "b", Status.received, none⟩ else none))
      ⟨true, false⟩ 2 3).1.auth_failures =
      gateFails (initial_state (fun j => if j = 3 then
        some ⟨"x@y.org", "s", "b", Status.received, none⟩ else none)) + 1 :=
  ⟨(claim_C6_amended _ ⟨true, false⟩ 2 3 ⟨"x@y.org", "s", "b", Status.received, none⟩
      rfl (Or.inl rfl) rfl rfl rfl).1,
   (claim_C6_amended _ ⟨true, false⟩ 2 3 ⟨"x@y.org", "s", "b", Status.received, none⟩
      rfl (Or.inl rfl) rfl rfl rfl).2.1 0 (by decide),
   (claim_C6_amended _ ⟨true, false⟩ 2 3 ⟨"x@y.org", "s", "b", Status.received, none⟩
      rfl (Or.inl rfl) rfl rfl rfl).2.2.2⟩

/-- A send-true event can only arise on the successful-dispatch path. -/
theorem send_true_mem_shape (s : PState) (env : SendEnv) (now i : Nat) (a : Bool)
    (h : Event.send i a true ∈ (process_ticket s env now i).2) :
    process_ticket s env now i =
      (⟨completeUpd now (claimUpd s.tickets i) i, 0⟩,
       gateEv s ++ [Event.claimUpdate i, Event.fetchQuery i,
         Event.send i (smtp_perform_called env) true, Event.completeUpdate i]) := by
  rcases process_ticket_paths s env now i with h1 | ⟨row, hf, hv, h1⟩ | ⟨row, hf, hv, hs, h1⟩ | ⟨row, hf, hv, hs, h1⟩
  · rw [h1] at h
    rcases mem_gate_or_tail s _ _ h with h2 | h2
    · exact Event.noConfusion h2
    · rcases List.mem_cons.1 h2 with h3 | h3
      · exact Event.noConfusion h3
      · rcases List.mem_cons.1 h3 with h4 | h4
        · exact Event.noConfusion h4
        · exact absurd h4 (List.not_mem_nil _)
  · rw [h1] at h
    rcases mem_gate_or_tail s _ _ h with h2 | h2
    · exact Event.noConfusion h2
    · rcases List.mem_cons.1 h2 with h3 | h3
      · exact Event.noConfusion h3
      · rcases List.mem_cons.1 h3 with h4 | h4
        · exact Event.noConfusion h4
        · rcases List.mem_cons.1 h4 with h5 | h5
          · exact Event.noConfusion h5
          · exact absurd h5 (List.not_mem_nil _)
  · exact h1
  · rw [h1] at h
    rcases mem_gate_or_tail s _ _ h with h2 | h2
    · exact Event.noConfusion h2
    · rcases List.mem_cons.1 h2 with h3 | h3
      · exact Event.noConfusion h3
      · rcases List.mem_cons.1 h3 with h4 | h4
        · exact Event.noConfusion h4
        · rcases List.mem_cons.1 h4 with h5 | h5
          · injection h5 with h6 h7 h8
            exact Bool.noConfusion h8
          · exact absurd h5 (List.not_mem_nil _)

theorem success_send_resets_counter (s : PState) (env : SendEnv) (now j i : Nat)
    (a : Bool) (h : Event.send i a true ∈ (process_ticket s env now j).2) :
    (process_ticket s env now j).1.auth_failures = 0 := by
  have hid : i = j := send_event_id s env now j i a true h
  subst hid
  rw [send_true_mem_shape s env now i a h]

/-- C5: the failure counter starts at 0 at process launch and is reset to 0
by any invocation whose send succeeds — in particular, any run of failed
sends followed by one invocation with a successful send ends with the
counter at 0. -/
theorem claim_C5_counter_reset_on_success (tbl : TicketTable) (s : PState)
    (env : SendEnv) (now j i : Nat) (a : Bool) (s2 : PState)
    (pre : List Invocation) (inv : Invocation) (b : Bool) :
    (initial_state tbl).auth_failures = 0 ∧
    (Event.send i a true ∈ (process_ticket s env now j).2 →
      (process_ticket s env now j).1.auth_failures = 0) ∧
    (Event.send inv.ticket_id b true ∈
        (process_ticket (run s2 pre).1 inv.env inv.now inv.ticket_id).2 →
      (run s2 (pre ++ [inv])).1.auth_failures = 0) := by
  refine ⟨rfl, ?_, ?_⟩
  · intro hmem
    exact success_send_resets_counter s env now j i a hmem
  · intro hmem
    have h0 := success_send_resets_counter (run s2 pre).1 inv.env inv.now
      inv.ticket_id inv.ticket_id b hmem
    rw [run_append]
    show (run (run s2 pre).1 [inv]).1.auth_failures = 0
    rw [run_cons]
    exact h0

/-- Witness for C5: launch counter 0; one failed send (ticket 2) then a
successful send (ticket 1) ends with counter 0. -/
theorem claim_C5_counter_reset_on_success_witness :
    (initial_state (fun _ => none)).auth_failures = 0 ∧
    (run (initial_state (fun j => if j = 1 then
          some ⟨"a@b.com", "s", "b", Status.received, none⟩
        else if j = 2 then
          some ⟨"c@d.org", "s", "b", Status.received, none⟩
        else none))
      ([⟨2, ⟨true, false⟩, 0⟩] ++ [⟨1, ⟨true, true⟩, 1⟩])).1.auth_failures = 0 :=
  ⟨(claim_C5_counter_reset_on_success (fun _ => none)
      (initial_state (fun _ => none)) ⟨true, true⟩ 0 0 0 true
      (initial_state (fun _ => none)) [] ⟨0, ⟨true, true⟩, 0⟩ true).1,
   (claim_C5_counter_reset_on_success (fun _ => none)
      (initial_state (fun _ => none)) ⟨true, true⟩ 0 0 0 true
      (initial_state (fun j => if j = 1 then
          some ⟨"a@b.com", "s", "b", Status.received, none⟩
        else if j = 2 then
          some ⟨"c@d.org", "s", "b", Status.received, none⟩
        else none))
      [⟨2, ⟨true, false⟩, 0⟩] ⟨1, ⟨true, true⟩, 1⟩ true).2.2
     (List.Mem.tail _ (List.Mem.tail _ (List.Mem.head _)))⟩

theorem claimUpd_at_keeps (tbl : TicketTable) (i : Nat) (t : Ticket)
    (h : tbl i = some t) :
    ∃ t1, claimUpd tbl i i = some t1 ∧ t1.sent_at = t.sent_at ∧
      t1.email = t.email ∧ t1.subject = t.subject ∧ t1.body = t.body := by
  unfold claimUpd
  rw [sqlUpdate_at _ _ _ _ t h]
  split
  · exact ⟨_, rfl, rfl, rfl, rfl, rfl⟩
  · exact ⟨_, rfl, rfl, rfl, rfl, rfl⟩

theorem claimUpd_other (tbl : TicketTable) (i j : Nat) (hj : j ≠ i) :
    claimUpd tbl i j = tbl j :=
  sqlUpdate_other tbl i _ _ j hj

theorem rejectUpd_other (now : Nat) (tbl : TicketTable) (i j : Nat) (hj : j ≠ i) :
    rejectUpd now tbl i j = tbl j :=
  sqlUpdate_other tbl i _ _ j hj

theorem completeUpd_other (now : Nat) (tbl : TicketTable) (i j : Nat) (hj : j ≠ i) :
    completeUpd now tbl i j = tbl j :=
  sqlUpdate_other tbl i _ _ j hj

theorem process_ticket_isSome (s : PState) (env : SendEnv) (now i j : Nat)
    (hj : (s.tickets j).isSome = true) :
    ((process_ticket s env now i).1.tickets j).isSome = true := by
  rcases process_ticket_paths s env now i with h | ⟨row, _, _, h⟩ | ⟨row, _, _, _, h⟩ | ⟨row, _, _, _, h⟩ <;>
    rw [h] <;>
    simp [claimUpd, rejectUpd, completeUpd, sqlUpdate_isSome, hj]

theorem run_isSome (s : PState) (invs : List Invocation) (j : Nat)
    (hj : (s.tickets j).isSome = true) :
    ((run s invs).1.tickets j).isSome = true := by
  induction invs generalizing s with
  | nil => exact hj
  | cons inv rest ih =>
    rw [run_cons]
    exact ih _ (process_ticket_isSome s inv.env inv.now inv.ticket_id j hj)

/-- C8: no invocation (nor any run of invocations) ever deletes a ticket
row, and the only writes that change a row's `sent_at` are the
invalid-address rejection update and the successful-send completion update,
both of which stamp `sent_at = NOW()`. -/
theorem claim_C8_sent_at_and_no_delete (s : PState) (env : SendEnv)
    (now i j : Nat) (invs : List Invocation) :
    ((s.tickets j).isSome = true →
      ((process_ticket s env now i).1.tickets j).isSome = true) ∧
    (∀ t u, s.tickets j = some t →
      (process_ticket s env now i).1.tickets j = some u →
      u.sent_at ≠ t.sent_at →
      u.sent_at = some now ∧
      (Event.rejectUpdate j ∈ (process_ticket s env now i).2 ∨
       Event.completeUpdate j ∈ (process_ticket s env now i).2)) ∧
    ((s.tickets j).isSome = true →
      ((run s invs).1.tickets j).isSome = true) := by
  refine ⟨process_ticket_isSome s env now i j, ?_, run_isSome s invs j⟩
  intro t u ht hu hne
  rcases process_ticket_paths s env now i with h1 | ⟨row, hf, hv, h1⟩ | ⟨row, hf, hv, hs, h1⟩ | ⟨row, hf, hv, hs, h1⟩
  · rw [h1] at hu
    have hu2 : claimUpd s.tickets i j = some u := hu
    by_cases hj : j = i
    · subst hj
      obtain ⟨t1, ht1, hsa, _⟩ := claimUpd_at_keeps s.tickets j t ht
      rw [ht1] at hu2
      cases Option.some_injective _ hu2
      exact absurd (hsa.trans rfl) hne
    · rw [claimUpd_other s.tickets i j hj, ht] at hu2
      cases Option.some_injective _ hu2
      exact absurd rfl hne
  · rw [h1] at hu ⊢
    have hu2 : rejectUpd now (claimUpd s.tickets i) i j = some u := hu
    by_cases hj : j = i
    · subst hj
      obtain ⟨t1, ht1, hsa, _⟩ := claimUpd_at_keeps s.tickets j t ht
      rw [rejectUpd_at now _ j t1 ht1] at hu2
      cases Option.some_injective _ hu2
      exact ⟨rfl, Or.inl (by simp [List.mem_append])⟩
    · rw [rejectUpd_other now _ i j hj, claimUpd_other s.tickets i j hj, ht] at hu2
      cases Option.some_injective _ hu2
      exact absurd rfl hne
  · rw [h1] at hu ⊢
    have hu2 : completeUpd now (claimUpd s.tickets i) i j = some u := hu
    by_cases hj : j = i
    · subst hj
      obtain ⟨t1, ht1, hsa, _⟩ := claimUpd_at_keeps s.tickets j t ht
      rw [completeUpd_at now _ j t1 ht1] at hu2
      cases Option.some_injective _ hu2
      exact ⟨rfl, Or.inr (by simp [List.mem_append])⟩
    · rw [completeUpd_other now _ i j hj, claimUpd_other s.tickets i j hj, ht] at hu2
      cases Option.some_injective _ hu2
      exact absurd rfl hne
  · rw [h1] at hu
    have hu2 : claimUpd s.tickets i j = some u := hu
    by_cases hj : j = i
    · subst hj
      obtain ⟨t1, ht1, hsa, _⟩ := claimUpd_at_keeps s.tickets j t ht
      rw [ht1] at hu2
      cases Option.some_injective _ hu2
      exact absurd (hsa.trans rfl) hne
    · rw [claimUpd_other s.tickets i j hj, ht] at hu2
      cases Option.some_injective _ hu2
      exact absurd rfl hne

/-- Witness for C8 at concrete inputs: the invalid-address path changes
`sent_at` of ticket 9 and is flagged by the rejection update; the row is
never deleted. -/
theorem claim_C8_sent_at_and_no_delete_witness :
    ((process_ticket (initial_state (fun j => if j = 9 then
        some ⟨"not-an-email", "s", "b", Status.received, none⟩ else none))
      ⟨true, true⟩ 5 9).1.tickets 9).isSome = true ∧
    ((⟨"not-an-email", "s", "b", Status.processing, some 5⟩ : Ticket).sent_at =
        some 5 ∧
      (Event.rejectUpdate 9 ∈ (process_ticket (initial_state (fun j => if j = 9 then
          some ⟨"not-an-email", "s", "b", Status.received, none⟩ else none))
        ⟨true, true⟩ 5 9).2 ∨
       Event.completeUpdate 9 ∈ (process_ticket (initial_state (fun j => if j = 9 then
          some ⟨"not-an-email", "s", "b", Status.received, none⟩ else none))
        ⟨true, true⟩ 5 9).2)) ∧
    ((run (initial_state (fun j => if j = 9 then
        some ⟨"not-an-email", "s", "b", Status.received, none⟩ else none))
      []).1.tickets 9).isSome = true :=
  ⟨(claim_C8_sent_at_and_no_delete (initial_state (fun j => if j = 9 then
        some ⟨"not-an-email", "s", "b", Status.received, none⟩ else none))
      ⟨true, true⟩ 5 9 9 []).1 rfl,
   (claim_C8_sent_at_and_no_delete (initial_state (fun j => if j = 9 then
        some ⟨"not-an-email", "s", "b", Status.received, none⟩ else none))
      ⟨true, true⟩ 5 9 9 []).2.1
     ⟨"not-an-email", "s", "b", Status.received, none⟩
     ⟨"not-an-email", "s", "b", Status.processing, some 5⟩
     rfl rfl (fun h => Option.noConfusion h),
   (claim_C8_sent_at_and_no_delete (initial_state (fun j => if j = 9 then
        some ⟨"not-an-email", "s", "b", Status.received, none⟩ else none))
      ⟨true, true⟩ 5 9 9 []).2.2 rfl⟩
